import Mathlib

/-!
Verification development for the Vani AI audio-analysis engine
(`scripts/analyze_audio.py` and `scripts/test_audio_comparison.py`).

The numeric kernels of the analyzer are embedded shallowly over `ℚ`
(Python floats are modelled as exact rationals; the one genuinely
irrational operation, the square root inside `np.std`, is modelled over `ℝ`).
DSP front-ends (librosa pitch tracking, FFT) are not re-implemented:
functions are embedded from the point where the Python code consumes
their numeric output (onset times, pitch contours, per-frequency
magnitudes), which is exactly the granularity at which the claims are
stated.
-/

namespace VaniAI

/-- Arithmetic mean of a list of rationals (`np.mean`); division by zero
length yields 0, but every use below guards for nonemptiness exactly as
the Python code does. -/
def listMean (xs : List ℚ) : ℚ := xs.sum / xs.length

/-- Minimum of a nonempty list (`np.min`); 0 on the empty list (the
Python code never reaches `np.min` on an empty list). -/
def listMin (xs : List ℚ) : ℚ :=
  match xs with
  | [] => 0
  | h :: t => t.foldl min h

/-- Maximum of a nonempty list (`np.max`); 0 on the empty list. -/
def listMax (xs : List ℚ) : ℚ :=
  match xs with
  | [] => 0
  | h :: t => t.foldl max h

/-- Population variance (`np.var`, i.e. the square of `np.std` with
`ddof=0`): mean of squared deviations from the mean. -/
def listVariance (xs : List ℚ) : ℚ :=
  ((xs.map (fun x => (x - listMean xs) ^ 2)).sum) / xs.length

/-- Model of `np.std`: square root of the population variance.  On an empty
array numpy produces NaN (mean of an empty slice); NaN is modelled as
`none`. -/
noncomputable def npStd (xs : List ℚ) : Option ℝ :=
  if xs.isEmpty then none else some (Real.sqrt ((listVariance xs : ℚ) : ℝ))

/-- Model of the Python builtin `round(x, 2)`: rounding to the nearest multiple
of 1/100 (ties are irrelevant to every property proved below). -/
def round2 (q : ℚ) : ℚ := ((round (q * 100) : ℤ) : ℚ) / 100

/-! ### Timing analysis (`_analyze_timing_patterns`, lines 211-277) -/

/-- Inter-onset pause durations: `onsets[i+1] - onsets[i]` for
consecutive onsets, computed only when there are at least two onsets
(`if len(onsets) > 1`). -/
def pause_durations (onsets : List ℚ) : List ℚ :=
  if 1 < onsets.length then
    (onsets.zip onsets.tail).map (fun p => p.2 - p.1)
  else []

/-- Embeds `avg_pause = np.mean(pause_durations) if pause_durations else 0.3`. -/
def avg_pause (onsets : List ℚ) : ℚ :=
  if pause_durations onsets = [] then 3/10 else listMean (pause_durations onsets)

/-- Embeds `min_pause = np.min(pause_durations) if pause_durations else 0.1`. -/
def min_pause (onsets : List ℚ) : ℚ :=
  if pause_durations onsets = [] then 1/10 else listMin (pause_durations onsets)

/-- Embeds `max_pause = np.max(pause_durations) if pause_durations else 1.0`. -/
def max_pause (onsets : List ℚ) : ℚ :=
  if pause_durations onsets = [] then 1 else listMax (pause_durations onsets)

/-- Embeds `speech_rhythm_regularity`, line 268 of `analyze_audio.py`:
`1.0 - (np.std(pause_durations) / avg_pause) if avg_pause > 0 else 0.5`.
Note the conditional guards on `avg_pause > 0`, not on the number of
pauses; `np.std` of an empty list is NaN (`none`), which propagates. -/
noncomputable def speech_rhythm_regularity (onsets : List ℚ) : Option ℝ :=
  if 0 < avg_pause onsets then
    (npStd (pause_durations onsets)).map
      (fun s => 1 - s / ((avg_pause onsets : ℚ) : ℝ))
  else some (1/2)

/-! ### Spectral band energies (`_analyze_audio_quality`, lines 296-313)

A spectrum is a list of (frequency, magnitude) pairs, the pointwise
content of the `freqs` / `magnitude` arrays of the Python code. -/

/-- Embeds `low_energy = np.sum(magnitude[low_freq_mask])`: sum of magnitudes
with `0 <= f <= 300`. -/
def low_energy : List (ℚ × ℚ) → ℚ
  | [] => 0
  | p :: rest => (if 0 ≤ p.1 ∧ p.1 ≤ 300 then p.2 else 0) + low_energy rest

/-- Embeds `mid_energy`: sum of magnitudes with `300 < f <= 3000`. -/
def mid_energy : List (ℚ × ℚ) → ℚ
  | [] => 0
  | p :: rest => (if 300 < p.1 ∧ p.1 ≤ 3000 then p.2 else 0) + mid_energy rest

/-- Embeds `high_energy`: sum of magnitudes with `3000 < f <= 8000`. -/
def high_energy : List (ℚ × ℚ) → ℚ
  | [] => 0
  | p :: rest => (if 3000 < p.1 ∧ p.1 ≤ 8000 then p.2 else 0) + high_energy rest

/-- A small concrete spectrum with one line in each band. -/
def exampleSpectrum : List (ℚ × ℚ) := [(100, 2), (1000, 3), (5000, 5)]

/-- Embeds `total_energy = low_energy + mid_energy + high_energy`. -/
def total_energy (spectrum : List (ℚ × ℚ)) : ℚ :=
  low_energy spectrum + mid_energy spectrum + high_energy spectrum

/-- Embeds `low_freq_energy_ratio = low/total if total > 0 else 0`. -/
def low_freq_energy_ratio (spectrum : List (ℚ × ℚ)) : ℚ :=
  if 0 < total_energy spectrum then low_energy spectrum / total_energy spectrum else 0

/-- Embeds `mid_freq_energy_ratio = mid/total if total > 0 else 0`. -/
def mid_freq_energy_ratio (spectrum : List (ℚ × ℚ)) : ℚ :=
  if 0 < total_energy spectrum then mid_energy spectrum / total_energy spectrum else 0

/-- Embeds `high_freq_energy_ratio = high/total if total > 0 else 0`. -/
def high_freq_energy_ratio (spectrum : List (ℚ × ℚ)) : ℚ :=
  if 0 < total_energy spectrum then high_energy spectrum / total_energy spectrum else 0

/-- Embeds `clarity_score = mid/total if total > 0 else 0.5` (line 313; note the
0.5 fallback, unlike the 0 fallback of the three ratios). -/
def clarity_score (spectrum : List (ℚ × ℚ)) : ℚ :=
  if 0 < total_energy spectrum then mid_energy spectrum / total_energy spectrum else 1/2

/-! ### Pitch trajectory (`_determine_pitch_trajectory`, lines 602-622) -/

/-- Mean of the first third of a contour (`np.mean(pitch_contour[:third])`
with `third = len // 3`). -/
def start_third_mean (c : List ℚ) : ℚ := listMean (c.take (c.length / 3))

/-- Mean of the last third of a contour (`np.mean(pitch_contour[-third:])`). -/
def end_third_mean (c : List ℚ) : ℚ := listMean (c.drop (c.length - c.length / 3))

/-- Embeds `_determine_pitch_trajectory`: label a contour rising / falling /
stable from the relative change between its first- and last-third means. -/
def determine_pitch_trajectory (c : List ℚ) : String :=
  if c.length < 3 then "stable"
  else
    let startT := start_third_mean c
    let endT := end_third_mean c
    if startT = 0 ∨ endT = 0 then "stable"
    else
      let change := (endT - startT) / startT
      if 1/10 < change then "rising"
      else if change < -(1/10) then "falling"
      else "stable"

/-! ### Emotion classification (`_analyze_emotions`, lines 535-546) -/

/-- The per-segment emotion decision of `_analyze_emotions`, given the
already-computed laughter and excitement scores: laughter first
(score > 0.6), then excitement (score > 0.5), else neutral with fixed
intensity 0.3.  Returns (emotion label, intensity). -/
def classify_emotion (laughter_score excitement_score : ℚ) : String × ℚ :=
  if 3/5 < laughter_score then ("laughter", min 1 laughter_score)
  else if 1/2 < excitement_score then ("excitement", min 1 excitement_score)
  else ("neutral", 3/10)

/-! ### Global parameter mapping (`_map_to_elevenlabs_settings`, lines 323-360) -/

/-- The mutable voice-settings record shared by both scripts: the three
clamped numeric parameters plus the fields the per-segment override
function leaves untouched. -/
structure VoiceSettings where
  stability : ℚ
  similarity_boost : ℚ
  style : ℚ
  use_speaker_boost : Bool
  pause_duration_seconds : ℚ
deriving DecidableEq

/-- Embeds `_map_to_elevenlabs_settings`: the pure arithmetic of lines 328-360,
taking the already-extracted features (pitch variation coefficient,
expressiveness score, clarity score, average pause) and producing the
recommended settings record, each numeric field rounded to 2 decimals. -/
def map_to_elevenlabs_settings (pitch_var expressiveness clarity avg_pause_s : ℚ) :
    VoiceSettings :=
  let stability := max (1/10) (min (9/10) (3/5 - pitch_var * (1/2)))
  let similarity_boost := max (3/10) (min (9/10) (1/2 + clarity * (3/10) - expressiveness * (1/5)))
  let style := max (1/10) (min (9/10) (3/10 + expressiveness * (2/5)))
  { stability := round2 stability
    similarity_boost := round2 similarity_boost
    style := round2 style
    use_speaker_boost := decide (3/5 < clarity)
    pause_duration_seconds := round2 avg_pause_s }

/-! ### Per-segment override (`get_dialogue_settings_version_b`,
`test_audio_comparison.py` lines 108-192)

The analysis JSON consumed by the function is modelled field by field:
`script_opening` / `script_closing` carry a trajectory label and the
boundary pitch, `per_dialogue` entries carry the fields written by
`_analyze_dialogue_pitch_patterns`, `emotion_segments` those written by
`_analyze_emotions`.  `detect_emotion_in_text` is a regex scan of the
dialogue text; its result (`None`, `"laughter"` or `"excitement"`) is
passed in as the `text_emotion` argument. -/

/-- One boundary record of `pitch_analysis` (`script_opening` with its
`start_pitch_hz`, or `script_closing` with its `end_pitch_hz`). -/
structure ScriptBoundary where
  pitch_trajectory : String
  pitch_hz : ℚ

/-- One entry of `pitch_analysis.per_dialogue`. -/
structure DialoguePitch where
  index : ℕ
  start_pitch_hz : ℚ
  end_pitch_hz : ℚ
  trajectory : String
  pitch_range : ℚ
  duration_seconds : ℚ
deriving DecidableEq

/-- One entry of `emotion_analysis.emotion_segments`. -/
structure EmotionSegment where
  index : ℕ
  emotion_type : String
  intensity : ℚ
  duration_seconds : ℚ

/-- The final re-clamp of lines 188-190: `stability` and `style` to
[0.1, 0.9], `similarity_boost` to [0.3, 0.9]. -/
def final_clamp (s : VoiceSettings) : VoiceSettings :=
  { s with stability := max (1/10) (min (9/10) s.stability),
           style := max (1/10) (min (9/10) s.style),
           similarity_boost := max (3/10) (min (9/10) s.similarity_boost) }

/-- Embeds `get_dialogue_settings_version_b`: sequentially nudges `style` and
`stability` for the segment at `dialogue_index`, then re-clamps all
three numeric fields to their global bounds (lines 188-190). -/
def get_dialogue_settings_version_b
    (dialogue_index total_dialogues : ℕ)
    (text_emotion : Option String)
    (base : VoiceSettings)
    (script_opening : Option ScriptBoundary)
    (script_closing : Option ScriptBoundary)
    (per_dialogue : List DialoguePitch)
    (emotion_segments : List EmotionSegment) : VoiceSettings :=
  -- opening variation (lines 121-130)
  let s := base
  let s :=
    match script_opening with
    | some op =>
      if dialogue_index = 0 then
        let s :=
          if op.pitch_trajectory = "rising" then
            { s with style := min (9/10) (s.style + 1/10),
                     stability := max (1/10) (s.stability - 1/20) }
          else if op.pitch_trajectory = "falling" then
            { s with style := max (1/10) (s.style - 1/20) }
          else s
        if 180 < op.pitch_hz then { s with style := min (9/10) (s.style + 1/20) } else s
      else s
    | none => s
  -- closing variation (lines 133-140)
  let s :=
    match script_closing with
    | some cl =>
      if dialogue_index + 1 = total_dialogues then
        let s :=
          if cl.pitch_trajectory = "falling" then
            { s with style := max (1/10) (s.style - 1/10),
                     stability := min (9/10) (s.stability + 1/20) }
          else s
        if cl.pitch_hz < 170 then { s with style := max (1/10) (s.style - 1/20) } else s
      else s
    | none => s
  -- per-dialogue pitch pattern (lines 143-163); the lookup is positional
  let s :=
    match per_dialogue[dialogue_index]? with
    | some d =>
      let s :=
        if d.trajectory = "falling" then { s with style := min (9/10) (s.style + 1/20) }
        else if d.trajectory = "rising" then { s with style := max (1/10) (s.style - 1/20) }
        else s
      if 0 < d.start_pitch_hz ∧ 0 < d.end_pitch_hz then
        let diff := d.start_pitch_hz - d.end_pitch_hz
        if 10 < diff then { s with style := max (1/10) (s.style - 3/100) }
        else if diff < -10 then { s with style := min (9/10) (s.style + 3/100) }
        else s
      else s
    | none => s
  -- text-marker emotion (lines 166-172)
  let s :=
    match text_emotion with
    | some e =>
      if e = "laughter" then { s with stability := 1/4, style := 3/4 }
      else if e = "excitement" then { s with stability := 7/20, style := 13/20 }
      else s
    | none => s
  -- audio-analysis emotion segments (lines 175-185): every matching entry applies
  let s := emotion_segments.foldl
    (fun s seg =>
      if seg.index = dialogue_index then
        if seg.emotion_type = "laughter" then
          { s with stability := max (1/10) (3/10 - seg.intensity * (1/10)),
                   style := min (9/10) (7/10 + seg.intensity * (1/10)) }
        else if seg.emotion_type = "excitement" then
          { s with stability := max (1/10) (2/5 - seg.intensity * (1/10)),
                   style := min (9/10) (3/5 + seg.intensity * (1/10)) }
        else s
      else s) s
  -- final clamps (lines 188-190)
  final_clamp s

/-! ### Per-dialogue pitch list (`_analyze_dialogue_pitch_patterns`,
lines 443-496)

The DSP work done per segment (slicing by onsets and running
`_extract_pitch_contour` on the boundary windows and the full segment)
produces, for segment `i`, an average start-window pitch, an average
end-window pitch, a trajectory label and a pitch range; the loop body is
embedded from that point on.  A `SegmentFeatures` list holds these
per-segment values in loop order. -/

/-- The per-segment values computed by the loop body of
`_analyze_dialogue_pitch_patterns` before the `avg_start_pitch > 0 and
avg_end_pitch > 0` guard. -/
structure SegmentFeatures where
  avg_start_pitch : ℚ
  avg_end_pitch : ℚ
  trajectory : String
  pitch_range : ℚ
  duration_seconds : ℚ

/-- The loop of lines 443-482, from loop counter `i` on: a segment is
appended to `per_dialogue` (with the loop index as its `index` field)
exactly when `avg_start_pitch > 0 and avg_end_pitch > 0` (line 470). -/
def dialogue_loop (i : ℕ) : List SegmentFeatures → List DialoguePitch
  | [] => []
  | f :: rest =>
    (if 0 < f.avg_start_pitch ∧ 0 < f.avg_end_pitch then
      [{ index := i
         start_pitch_hz := f.avg_start_pitch
         end_pitch_hz := f.avg_end_pitch
         trajectory := f.trajectory
         pitch_range := f.pitch_range
         duration_seconds := f.duration_seconds }]
     else []) ++ dialogue_loop (i + 1) rest

/-- The `per_dialogue` list produced by `_analyze_dialogue_pitch_patterns`
for a run whose segments have the given features. -/
def per_dialogue_entries (feats : List SegmentFeatures) : List DialoguePitch :=
  dialogue_loop 0 feats

/-- The `start_pitches` aggregate list, appended on line 471 under the
same guard as the `per_dialogue` entry. -/
def start_pitches : List SegmentFeatures → List ℚ
  | [] => []
  | f :: rest =>
    (if 0 < f.avg_start_pitch ∧ 0 < f.avg_end_pitch then [f.avg_start_pitch] else []) ++
      start_pitches rest

/-- The `end_pitches` aggregate list, appended on line 472 under the same
guard. -/
def end_pitches : List SegmentFeatures → List ℚ
  | [] => []
  | f :: rest =>
    (if 0 < f.avg_start_pitch ∧ 0 < f.avg_end_pitch then [f.avg_end_pitch] else []) ++
      end_pitches rest

/-- A base settings record with the default values of the project
(stability 0.35, similarity_boost 0.75, style 0.55). -/
def exampleBase : VoiceSettings :=
  { stability := 7/20, similarity_boost := 3/4, style := 11/20,
    use_speaker_boost := true, pause_duration_seconds := 3/10 }

/-- A first per-dialogue entry with no pitch movement. -/
def exampleFirst : DialoguePitch :=
  { index := 0, start_pitch_hz := 200, end_pitch_hz := 200, trajectory := "stable",
    pitch_range := 0, duration_seconds := 1 }

/-- A per-dialogue entry with a 220→150 Hz boundary drop whose full
contour was classified "falling". -/
def exampleDrop : DialoguePitch :=
  { index := 1, start_pitch_hz := 220, end_pitch_hz := 150, trajectory := "falling",
    pitch_range := 70, duration_seconds := 2 }

/-- A per-dialogue entry with the same 220→150 Hz boundary drop but a
"stable" full-contour classification. -/
def exampleStableDrop : DialoguePitch :=
  { index := 1, start_pitch_hz := 220, end_pitch_hz := 150, trajectory := "stable",
    pitch_range := 70, duration_seconds := 2 }

/-- The per-dialogue entry produced for the first segment of
`omittedSegmentExample` below. -/
def exampleKeptEntry : DialoguePitch :=
  { index := 0, start_pitch_hz := 200, end_pitch_hz := 190, trajectory := "stable",
    pitch_range := 12, duration_seconds := 1 }

/-- A three-segment run whose middle segment yields no usable start
pitch (`avg_start_pitch = 0`), used to exhibit silent omission and a
non-contiguous `index` field. -/
def omittedSegmentExample : List SegmentFeatures :=
  [{ avg_start_pitch := 200, avg_end_pitch := 190, trajectory := "stable",
     pitch_range := 12, duration_seconds := 1 },
   { avg_start_pitch := 0, avg_end_pitch := 150, trajectory := "stable",
     pitch_range := 0, duration_seconds := 2 },
   { avg_start_pitch := 180, avg_end_pitch := 210, trajectory := "rising",
     pitch_range := 35, duration_seconds := 1 }]

/-! ## Helper lemmas -/

/-- The mean of a list is invariant under reversal. -/
lemma listMean_reverse (l : List ℚ) : listMean l.reverse = listMean l := by
  rw [listMean, listMean, List.sum_reverse, List.length_reverse]

/-- The mean of a nonempty constant list is its constant. -/
lemma listMean_replicate (m : ℕ) (hm : m ≠ 0) (k : ℚ) :
    listMean (List.replicate m k) = k := by
  rw [listMean, List.sum_replicate, List.length_replicate, nsmul_eq_mul,
      mul_comm, mul_div_assoc, div_self (by exact_mod_cast hm), mul_one]

/-- Reversing a contour swaps the two third-means: the first third of
the reversed contour is the reversed last third of the original. -/
lemma start_third_mean_reverse (c : List ℚ) :
    start_third_mean c.reverse = end_third_mean c := by
  rw [start_third_mean, end_third_mean, List.length_reverse, List.take_reverse,
      listMean_reverse]

/-- Reversing a contour swaps the two third-means (other direction). -/
lemma end_third_mean_reverse (c : List ℚ) :
    end_third_mean c.reverse = start_third_mean c := by
  rw [end_third_mean, start_third_mean, List.length_reverse, List.drop_reverse,
      listMean_reverse]
  have h3 : c.length / 3 ≤ c.length := Nat.div_le_self _ _
  congr 2
  omega

/-- Rounding to two decimals keeps a value between two centi-rational
bounds. -/
lemma round2_mem (a b : ℤ) (q : ℚ) (h1 : (a : ℚ) / 100 ≤ q) (h2 : q ≤ (b : ℚ) / 100) :
    (a : ℚ) / 100 ≤ round2 q ∧ round2 q ≤ (b : ℚ) / 100 := by
  have ha : a ≤ round (q * 100) := by
    rw [round_eq, Int.le_floor]
    linarith
  have hb : round (q * 100) ≤ b := by
    rw [round_eq]
    have hlt : ⌊q * 100 + 1 / 2⌋ < b + 1 := by
      rw [Int.floor_lt]
      push_cast
      linarith
    omega
  rw [round2]
  constructor
  · exact (div_le_div_iff_of_pos_right (by norm_num : (0 : ℚ) < 100)).mpr
      (by exact_mod_cast ha)
  · exact (div_le_div_iff_of_pos_right (by norm_num : (0 : ℚ) < 100)).mpr
      (by exact_mod_cast hb)

/-- A clamped-then-rounded value stays between its centi-rational clamp
bounds. -/
lemma round2_clamp_mem (lo hi x : ℚ) (a b : ℤ) (hlo : lo = (a : ℚ) / 100)
    (hhi : hi = (b : ℚ) / 100) (hab : lo ≤ hi) :
    lo ≤ round2 (max lo (min hi x)) ∧ round2 (max lo (min hi x)) ≤ hi := by
  subst hlo hhi
  exact round2_mem a b _ (le_max_left _ _) (max_le hab (min_le_left _ _))

/-- The final re-clamp forces all three numeric fields into their
documented bounds, whatever the accumulated adjustments produced. -/
lemma final_clamp_bounds (s : VoiceSettings) :
    1/10 ≤ (final_clamp s).stability ∧ (final_clamp s).stability ≤ 9/10 ∧
    1/10 ≤ (final_clamp s).style ∧ (final_clamp s).style ≤ 9/10 ∧
    3/10 ≤ (final_clamp s).similarity_boost ∧
      (final_clamp s).similarity_boost ≤ 9/10 := by
  simp only [final_clamp]
  exact ⟨le_max_left _ _, max_le (by norm_num) (min_le_left _ _),
    le_max_left _ _, max_le (by norm_num) (min_le_left _ _),
    le_max_left _ _, max_le (by norm_num) (min_le_left _ _)⟩

/-- Every element produced by the per-dialogue loop satisfies the
positivity guard of line 470. -/
lemma mem_dialogue_loop {e : DialoguePitch} :
    ∀ {i : ℕ} {feats : List SegmentFeatures}, e ∈ dialogue_loop i feats →
      0 < e.start_pitch_hz ∧ 0 < e.end_pitch_hz := by
  intro i feats
  induction feats generalizing i with
  | nil => intro h; simp [dialogue_loop] at h
  | cons f rest ih =>
    intro h
    rw [dialogue_loop] at h
    rcases List.mem_append.mp h with h | h
    · split_ifs at h with hc
      · rw [List.mem_singleton] at h
        subst h
        exact ⟨hc.1, hc.2⟩
      · simp at h
    · exact ih h

/-- The per-dialogue loop keeps at most one entry per segment. -/
lemma dialogue_loop_length :
    ∀ (i : ℕ) (feats : List SegmentFeatures),
      (dialogue_loop i feats).length ≤ feats.length := by
  intro i feats
  induction feats generalizing i with
  | nil => simp [dialogue_loop]
  | cons f rest ih =>
    rw [dialogue_loop, List.length_append]
    have h := ih (i + 1)
    split_ifs <;> simp only [List.length_nil, List.length_cons] <;> omega

/-- The aggregate `start_pitches` list holds exactly the start pitches
of the kept per-dialogue entries, in order. -/
lemma start_pitches_eq_map :
    ∀ (i : ℕ) (feats : List SegmentFeatures),
      start_pitches feats = (dialogue_loop i feats).map (fun e => e.start_pitch_hz) := by
  intro i feats
  induction feats generalizing i with
  | nil => rfl
  | cons f rest ih =>
    rw [start_pitches, dialogue_loop, List.map_append]
    split_ifs
    · simp [ih (i + 1)]
    · simp [ih (i + 1)]

/-- The aggregate `end_pitches` list holds exactly the end pitches of
the kept per-dialogue entries, in order. -/
lemma end_pitches_eq_map :
    ∀ (i : ℕ) (feats : List SegmentFeatures),
      end_pitches feats = (dialogue_loop i feats).map (fun e => e.end_pitch_hz) := by
  intro i feats
  induction feats generalizing i with
  | nil => rfl
  | cons f rest ih =>
    rw [end_pitches, dialogue_loop, List.map_append]
    split_ifs
    · simp [ih (i + 1)]
    · simp [ih (i + 1)]

/-- The trajectory is "stable" on every degenerate contour. -/
lemma trajectory_stable_of (c : List ℚ)
    (h : c.length < 3 ∨ start_third_mean c = 0 ∨ end_third_mean c = 0) :
    determine_pitch_trajectory c = "stable" := by
  rcases h with h | h | h
  · rw [determine_pitch_trajectory, if_pos h]
  · by_cases hl : c.length < 3
    · rw [determine_pitch_trajectory, if_pos hl]
    · rw [determine_pitch_trajectory, if_neg hl]
      exact if_pos (Or.inl h)
  · by_cases hl : c.length < 3
    · rw [determine_pitch_trajectory, if_pos hl]
    · rw [determine_pitch_trajectory, if_neg hl]
      exact if_pos (Or.inr h)

/-- On a non-degenerate contour the trajectory reduces to the
threshold test on the relative change of the third-means. -/
lemma trajectory_cases (c : List ℚ) (h3 : 3 ≤ c.length)
    (hs : start_third_mean c ≠ 0) (he : end_third_mean c ≠ 0) :
    determine_pitch_trajectory c =
      if 1/10 < (end_third_mean c - start_third_mean c) / start_third_mean c then "rising"
      else if (end_third_mean c - start_third_mean c) / start_third_mean c < -(1/10) then
        "falling"
      else "stable" := by
  rw [determine_pitch_trajectory, if_neg (by omega)]
  exact if_neg (by push_neg; exact ⟨hs, he⟩)

/-- Characterisation of the "rising" label on non-degenerate contours. -/
lemma rising_iff (c : List ℚ) (h3 : 3 ≤ c.length)
    (hs : start_third_mean c ≠ 0) (he : end_third_mean c ≠ 0) :
    determine_pitch_trajectory c = "rising" ↔
      1/10 < (end_third_mean c - start_third_mean c) / start_third_mean c := by
  rw [trajectory_cases c h3 hs he]
  split_ifs with h1 h2
  · exact iff_of_true rfl h1
  · exact iff_of_false (by decide) h1
  · exact iff_of_false (by decide) h1

/-- Characterisation of the "falling" label on non-degenerate contours. -/
lemma falling_iff (c : List ℚ) (h3 : 3 ≤ c.length)
    (hs : start_third_mean c ≠ 0) (he : end_third_mean c ≠ 0) :
    determine_pitch_trajectory c = "falling" ↔
      ¬ 1/10 < (end_third_mean c - start_third_mean c) / start_third_mean c ∧
        (end_third_mean c - start_third_mean c) / start_third_mean c < -(1/10) := by
  rw [trajectory_cases c h3 hs he]
  split_ifs with h1 h2
  · exact iff_of_false (by decide) (fun h => h.1 h1)
  · exact iff_of_true rfl ⟨h1, h2⟩
  · exact iff_of_false (by decide) (fun h => h2 h.2)

/-! ## Claims -/

/-- Claim C7: with zero or one onset no inter-onset pause exists, and
the timing statistics equal the fallback constants 0.1 / 0.3 / 1.0
seconds for min / average / max pause. -/
theorem C7_timing_fallback (onsets : List ℚ) (h : onsets.length ≤ 1) :
    min_pause onsets = 1/10 ∧ avg_pause onsets = 3/10 ∧ max_pause onsets = 1 := by
  have hp : pause_durations onsets = [] := by
    rw [pause_durations, if_neg (by omega)]
  rw [min_pause, avg_pause, max_pause, hp]
  simp

/-- Witness for C7 at a single onset. -/
theorem C7_timing_fallback_witness :
    min_pause [(2 : ℚ)] = 1/10 ∧ avg_pause [(2 : ℚ)] = 3/10 ∧ max_pause [(2 : ℚ)] = 1 :=
  C7_timing_fallback [(2 : ℚ)] (by decide)

/-- Claim C8: the three spectral band energy ratios sum to exactly 1
whenever the total band energy is positive, and all three are 0 when
the total band energy is 0. -/
theorem C8_band_ratio_sum (spectrum : List (ℚ × ℚ)) :
    (0 < total_energy spectrum →
      low_freq_energy_ratio spectrum + mid_freq_energy_ratio spectrum +
        high_freq_energy_ratio spectrum = 1) ∧
    (total_energy spectrum = 0 →
      low_freq_energy_ratio spectrum = 0 ∧ mid_freq_energy_ratio spectrum = 0 ∧
        high_freq_energy_ratio spectrum = 0) := by
  constructor
  · intro h
    have hne : total_energy spectrum ≠ 0 := ne_of_gt h
    rw [low_freq_energy_ratio, mid_freq_energy_ratio, high_freq_energy_ratio,
        if_pos h, if_pos h, if_pos h, div_add_div_same, div_add_div_same]
    have ht : low_energy spectrum + mid_energy spectrum + high_energy spectrum
        = total_energy spectrum := rfl
    rw [ht, div_self hne]
  · intro h
    rw [low_freq_energy_ratio, mid_freq_energy_ratio, high_freq_energy_ratio]
    simp [h]

/-- Witness for C8 on a spectrum with one line per band. -/
theorem C8_band_ratio_sum_witness :
    low_freq_energy_ratio exampleSpectrum + mid_freq_energy_ratio exampleSpectrum +
      high_freq_energy_ratio exampleSpectrum = 1 :=
  (C8_band_ratio_sum exampleSpectrum).1
    (by norm_num [total_energy, low_energy, mid_energy, high_energy, exampleSpectrum])

/-- Claim C6 counterexample: on a spectrum with zero total band energy
the code reports `clarity_score = 0.5`, which differs from the mid-band
energy ratio (0 in that case), so the claim that clarity always equals
the mid-band ratio fails in the degenerate case. -/
theorem C6_counterexample :
    clarity_score ([] : List (ℚ × ℚ)) = 1/2 ∧
    mid_freq_energy_ratio ([] : List (ℚ × ℚ)) = 0 ∧
    (1/2 : ℚ) ≠ 0 := by
  norm_num [clarity_score, mid_freq_energy_ratio, total_energy, low_energy,
    mid_energy, high_energy]

/-- Claim C6 (amended): the reported clarity score equals the mid-band
energy ratio whenever the total band energy is positive; when the total
band energy is 0, the clarity score is the fallback 0.5 while the
mid-band ratio is 0. -/
theorem C6_clarity_amended (spectrum : List (ℚ × ℚ)) :
    (0 < total_energy spectrum →
      clarity_score spectrum = mid_freq_energy_ratio spectrum) ∧
    (total_energy spectrum = 0 →
      clarity_score spectrum = 1/2 ∧ mid_freq_energy_ratio spectrum = 0) := by
  constructor
  · intro h
    rw [clarity_score, mid_freq_energy_ratio, if_pos h, if_pos h]
  · intro h
    rw [clarity_score, mid_freq_energy_ratio]
    simp [h]

/-- Witness for the amended C6 on a spectrum with positive total energy. -/
theorem C6_clarity_amended_witness :
    clarity_score exampleSpectrum = mid_freq_energy_ratio exampleSpectrum :=
  (C6_clarity_amended exampleSpectrum).1
    (by norm_num [total_energy, low_energy, mid_energy, high_energy, exampleSpectrum])

/-- Claim C5: the segment emotion decision assigns a single label with
laughter checked strictly before excitement: a laughter score above 0.6
yields "laughter" regardless of the excitement score, and "excitement"
is only assigned when the laughter check failed and the excitement
score exceeds 0.5. -/
theorem C5_emotion_priority (ls es : ℚ) :
    (3/5 < ls → (classify_emotion ls es).1 = "laughter") ∧
    ((classify_emotion ls es).1 = "excitement" → ls ≤ 3/5 ∧ 1/2 < es) ∧
    ((classify_emotion ls es).1 = "laughter" ∨ (classify_emotion ls es).1 = "excitement" ∨
      (classify_emotion ls es).1 = "neutral") := by
  refine ⟨fun h => ?_, fun h => ?_, ?_⟩
  · simp [classify_emotion, if_pos h]
  · by_cases h1 : 3/5 < ls
    · simp [classify_emotion, if_pos h1] at h
    · by_cases h2 : 1/2 < es
      · exact ⟨le_of_not_lt h1, h2⟩
      · rw [classify_emotion, if_neg h1, if_neg h2] at h
        simp at h
  · rw [classify_emotion]
    split_ifs <;> simp

/-- Witness for C5 on a segment passing both detector thresholds. -/
theorem C5_emotion_priority_witness :
    (classify_emotion (7/10) (3/5)).1 = "laughter" :=
  (C5_emotion_priority (7/10) (3/5)).1 (by norm_num)

/-- Claim C3: the trajectory label is "stable" for contours with fewer
than 3 samples or with a zero first- or last-third mean, and otherwise
is determined by the relative change between the two third-means with
the strict ±0.10 thresholds. -/
theorem C3_trajectory_rule (c : List ℚ) :
    (c.length < 3 ∨ start_third_mean c = 0 ∨ end_third_mean c = 0 →
      determine_pitch_trajectory c = "stable") ∧
    (3 ≤ c.length → start_third_mean c ≠ 0 → end_third_mean c ≠ 0 →
      determine_pitch_trajectory c =
        if 1/10 < (end_third_mean c - start_third_mean c) / start_third_mean c then "rising"
        else if (end_third_mean c - start_third_mean c) / start_third_mean c < -(1/10) then
          "falling"
        else "stable") :=
  ⟨fun h => trajectory_stable_of c h, fun h3 hs he => trajectory_cases c h3 hs he⟩

/-- Witness for C3 on a rising three-sample contour. -/
theorem C3_trajectory_rule_witness :
    determine_pitch_trajectory [100, 100, 120] = "rising" := by
  have h := (C3_trajectory_rule [100, 100, 120]).2 (by norm_num)
    (by norm_num [start_third_mean, listMean])
    (by norm_num [end_third_mean, listMean])
  rw [h]
  norm_num [start_third_mean, end_third_mean, listMean]

/-- Claim C1: for every combination of feature values, the global
parameter mapper keeps stability and style in [0.1, 0.9] and
similarity_boost in [0.3, 0.9]; and for every combination of segment
index, total count, text emotion, base record, boundary data,
per-dialogue entries and emotion segments, the per-segment override
record satisfies the same bounds. -/
theorem C1_parameter_bounds :
    (∀ pitch_var expressiveness clarity avg_pause_s : ℚ,
      1/10 ≤ (map_to_elevenlabs_settings pitch_var expressiveness clarity
        avg_pause_s).stability ∧
      (map_to_elevenlabs_settings pitch_var expressiveness clarity
        avg_pause_s).stability ≤ 9/10 ∧
      1/10 ≤ (map_to_elevenlabs_settings pitch_var expressiveness clarity
        avg_pause_s).style ∧
      (map_to_elevenlabs_settings pitch_var expressiveness clarity
        avg_pause_s).style ≤ 9/10 ∧
      3/10 ≤ (map_to_elevenlabs_settings pitch_var expressiveness clarity
        avg_pause_s).similarity_boost ∧
      (map_to_elevenlabs_settings pitch_var expressiveness clarity
        avg_pause_s).similarity_boost ≤ 9/10) ∧
    (∀ (i total : ℕ) (te : Option String) (base : VoiceSettings)
        (so sc : Option ScriptBoundary) (pd : List DialoguePitch)
        (es : List EmotionSegment),
      1/10 ≤ (get_dialogue_settings_version_b i total te base so sc pd es).stability ∧
      (get_dialogue_settings_version_b i total te base so sc pd es).stability ≤ 9/10 ∧
      1/10 ≤ (get_dialogue_settings_version_b i total te base so sc pd es).style ∧
      (get_dialogue_settings_version_b i total te base so sc pd es).style ≤ 9/10 ∧
      3/10 ≤ (get_dialogue_settings_version_b i total te base so sc pd
        es).similarity_boost ∧
      (get_dialogue_settings_version_b i total te base so sc pd
        es).similarity_boost ≤ 9/10) := by
  constructor
  · intro pv ex cl ap
    simp only [map_to_elevenlabs_settings]
    have hst := round2_clamp_mem (1/10) (9/10) (3/5 - pv * (1/2)) 10 90
      (by norm_num) (by norm_num) (by norm_num)
    have hsty := round2_clamp_mem (1/10) (9/10) (3/10 + ex * (2/5)) 10 90
      (by norm_num) (by norm_num) (by norm_num)
    have hsi := round2_clamp_mem (3/10) (9/10) (1/2 + cl * (3/10) - ex * (1/5)) 30 90
      (by norm_num) (by norm_num) (by norm_num)
    exact ⟨hst.1, hst.2, hsty.1, hsty.2, hsi.1, hsi.2⟩
  · intro i total te base so sc pd es
    simp only [get_dialogue_settings_version_b]
    exact final_clamp_bounds _

/-- Claim C9 counterexample: a segment whose boundary pitch drops from
220 Hz to 150 Hz (drop > 10 Hz) but whose full-contour trajectory is
"falling" receives +0.05 (falling trajectory) before the −0.03
pitch-difference adjustment: the resulting style is base + 0.02, not
base − 0.03. -/
theorem C9_counterexample :
    (get_dialogue_settings_version_b 1 3 none exampleBase none none
        [exampleFirst, exampleDrop] []).style = 57/100 ∧
    (57/100 : ℚ) ≠ exampleBase.style - 3/100 := by
  constructor
  · norm_num [get_dialogue_settings_version_b, final_clamp, exampleBase,
      exampleFirst, exampleDrop, min_def, max_def]
  · norm_num [exampleBase]

/-- Claim C9 (amended): for a segment whose average start pitch exceeds
its average end pitch by more than 10 Hz, whose full-contour trajectory
is neither "falling" nor "rising", with no opening/closing data and no
detected emotion, and whose base style lies in [0.13, 0.9] (so neither
clamp bites), the per-segment style is exactly 0.03 less than the base
style. -/
theorem C9_style_drop_amended (i total : ℕ) (base : VoiceSettings)
    (pd : List DialoguePitch) (d : DialoguePitch)
    (hd : pd[i]? = some d)
    (ht1 : d.trajectory ≠ "falling") (ht2 : d.trajectory ≠ "rising")
    (hsp : 0 < d.start_pitch_hz) (hep : 0 < d.end_pitch_hz)
    (hdiff : 10 < d.start_pitch_hz - d.end_pitch_hz)
    (hlo : 13/100 ≤ base.style) (hhi : base.style ≤ 9/10) :
    (get_dialogue_settings_version_b i total none base none none pd []).style
      = base.style - 3/100 := by
  simp only [get_dialogue_settings_version_b, hd, ht1, ht2, if_false, ite_false,
    List.foldl_nil, final_clamp]
  rw [if_pos ⟨hsp, hep⟩, if_pos hdiff]
  have h1 : max (1/10) (base.style - 3/100) = base.style - 3/100 :=
    max_eq_right (by linarith)
  rw [h1, min_eq_right (by linarith), max_eq_right (by linarith)]

/-- Witness for the amended C9: the 220→150 Hz drop with a "stable"
trajectory yields style 0.55 − 0.03 = 0.52. -/
theorem C9_style_drop_amended_witness :
    (get_dialogue_settings_version_b 1 3 none exampleBase none none
        [exampleFirst, exampleStableDrop] []).style = exampleBase.style - 3/100 :=
  C9_style_drop_amended 1 3 exampleBase [exampleFirst, exampleStableDrop]
    exampleStableDrop rfl
    (by decide)
    (by decide)
    (by norm_num [exampleStableDrop])
    (by norm_num [exampleStableDrop])
    (by norm_num [exampleStableDrop])
    (by norm_num [exampleBase])
    (by norm_num [exampleBase])

/-- Claim C10: a segment enters the per_dialogue list (and the
dialogue_patterns aggregate lists) exactly under the guard that both
boundary-window average pitches are strictly positive; other segments
are silently dropped, so the list can be shorter than the segment count
and its index field can skip values. -/
theorem C10_per_dialogue_filter :
    (∀ (feats : List SegmentFeatures) (e : DialoguePitch),
      e ∈ per_dialogue_entries feats → 0 < e.start_pitch_hz ∧ 0 < e.end_pitch_hz) ∧
    (∀ feats : List SegmentFeatures,
      (per_dialogue_entries feats).length ≤ feats.length) ∧
    (∀ feats : List SegmentFeatures,
      start_pitches feats = (per_dialogue_entries feats).map (fun e => e.start_pitch_hz) ∧
      end_pitches feats = (per_dialogue_entries feats).map (fun e => e.end_pitch_hz)) ∧
    ((per_dialogue_entries omittedSegmentExample).map (fun e => e.index) = [0, 2] ∧
      (per_dialogue_entries omittedSegmentExample).length <
        omittedSegmentExample.length) := by
  refine ⟨fun feats e h => mem_dialogue_loop h, fun feats => dialogue_loop_length 0 feats,
    fun feats => ⟨start_pitches_eq_map 0 feats, end_pitches_eq_map 0 feats⟩, ?_, ?_⟩
  · norm_num [per_dialogue_entries, dialogue_loop, omittedSegmentExample]
  · norm_num [per_dialogue_entries, dialogue_loop, omittedSegmentExample]

/-- Claim C2 counterexample: with exactly one inter-onset pause the
code computes `1 − std([p])/p = 1.0`, not the claimed default 0.5 (the
`else 0.5` branch is guarded by `avg_pause > 0`, not by the number of
pauses). -/
theorem C2_counterexample :
    speech_rhythm_regularity [0, 1/2] = some 1 ∧ (1 : ℝ) ≠ 1/2 := by
  constructor
  · have hp : pause_durations [0, 1/2] = [1/2] := by
      norm_num [pause_durations]
    have ha : avg_pause [0, 1/2] = 1/2 := by
      rw [avg_pause, hp]
      norm_num [listMean]
    have hv : listVariance [(1 : ℚ)/2] = 0 := by
      norm_num [listVariance, listMean]
    rw [speech_rhythm_regularity, if_pos (by rw [ha]; norm_num), hp, npStd,
      if_neg (by simp), hv, ha]
    norm_num
  · norm_num

/-- Claim C2 (amended): `speech_rhythm_regularity` equals
`1 − std(pauses)/mean(pauses)` whenever the pause list is nonempty with
positive mean — so a single pause yields 1.0, not 0.5; with zero pauses
the fallback average 0.3 passes the `avg_pause > 0` guard and the value
is `np.std([])` = NaN (modelled `none`); the 0.5 default is produced
only when the pause mean is not positive. -/
theorem C2_rhythm_regularity_amended (onsets : List ℚ) :
    (pause_durations onsets ≠ [] → 0 < listMean (pause_durations onsets) →
      speech_rhythm_regularity onsets =
        some (1 - Real.sqrt ((listVariance (pause_durations onsets) : ℚ) : ℝ) /
          ((listMean (pause_durations onsets) : ℚ) : ℝ))) ∧
    (pause_durations onsets = [] → speech_rhythm_regularity onsets = none) ∧
    (pause_durations onsets ≠ [] → listMean (pause_durations onsets) ≤ 0 →
      speech_rhythm_regularity onsets = some (1/2)) := by
  refine ⟨fun hne hpos => ?_, fun hnil => ?_, fun hne hle => ?_⟩
  · have ha : avg_pause onsets = listMean (pause_durations onsets) := by
      rw [avg_pause, if_neg hne]
    rw [speech_rhythm_regularity, if_pos (by rw [ha]; exact hpos), npStd,
      if_neg (by simpa [List.isEmpty_iff] using hne), ha]
    rfl
  · have ha : avg_pause onsets = 3/10 := by rw [avg_pause, if_pos hnil]
    rw [speech_rhythm_regularity, if_pos (by rw [ha]; norm_num), hnil, npStd]
    rfl
  · have ha : avg_pause onsets = listMean (pause_durations onsets) := by
      rw [avg_pause, if_neg hne]
    rw [speech_rhythm_regularity, if_neg (by rw [ha]; exact not_lt.mpr hle)]

/-- Witness for the amended C2 on two pauses of 0.1 s and 0.2 s. -/
theorem C2_rhythm_regularity_amended_witness :
    speech_rhythm_regularity [0, 1/10, 3/10] =
      some (1 - Real.sqrt ((listVariance (pause_durations [0, 1/10, 3/10]) : ℚ) : ℝ) /
        ((listMean (pause_durations [0, 1/10, 3/10]) : ℚ) : ℝ)) :=
  (C2_rhythm_regularity_amended [0, 1/10, 3/10]).1
    (by simp [pause_durations])
    (by norm_num [pause_durations, listMean])

/-- Claim C4 counterexample: relative change is asymmetric, so
reversing a contour does not always flip "rising" to "falling": the
contour with third-means 10 and 11.05 rises by 10.5 %, but its reverse
changes by −9.5 %, inside the ±10 % band, and is labeled "stable". -/
theorem C4_counterexample :
    determine_pitch_trajectory [10, 10, 221/20] = "rising" ∧
    determine_pitch_trajectory (List.reverse [10, 10, 221/20]) = "stable" ∧
    ("stable" : String) ≠ "falling" := by
  refine ⟨?_, ?_, by decide⟩
  · norm_num [determine_pitch_trajectory, start_third_mean, end_third_mean, listMean]
  · norm_num [determine_pitch_trajectory, start_third_mean, end_third_mean, listMean]

/-- Claim C4 (amended): every constant contour is labeled "stable";
for contours with positive first- and last-third means, reversal maps
"falling" to "rising", while reversing a "rising" contour never yields
"rising" again (it yields "falling" or, when the reversed relative drop
is within the 10 % band, "stable"). -/
theorem C4_symmetry_amended :
    (∀ (n : ℕ) (k : ℚ),
      determine_pitch_trajectory (List.replicate n k) = "stable") ∧
    (∀ c : List ℚ, 0 < start_third_mean c → 0 < end_third_mean c →
      (determine_pitch_trajectory c = "falling" →
        determine_pitch_trajectory c.reverse = "rising") ∧
      (determine_pitch_trajectory c = "rising" →
        determine_pitch_trajectory c.reverse ≠ "rising")) := by
  constructor
  · intro n k
    by_cases hn : n < 3
    · exact trajectory_stable_of _ (Or.inl (by simpa using hn))
    · have hs : start_third_mean (List.replicate n k) = k := by
        rw [start_third_mean, List.length_replicate, List.take_replicate]
        exact listMean_replicate _ (by omega) k
      have he : end_third_mean (List.replicate n k) = k := by
        rw [end_third_mean, List.length_replicate, List.drop_replicate]
        exact listMean_replicate _ (by omega) k
      by_cases hk : k = 0
      · exact trajectory_stable_of _ (Or.inr (Or.inl (hs.trans hk)))
      · rw [trajectory_cases _ (by simpa using Nat.le_of_not_lt hn)
          (by rw [hs]; exact hk) (by rw [he]; exact hk), hs, he]
        norm_num
  · intro c hs he
    have hs0 : start_third_mean c ≠ 0 := ne_of_gt hs
    have he0 : end_third_mean c ≠ 0 := ne_of_gt he
    have hsr : start_third_mean c.reverse ≠ 0 := by
      rw [start_third_mean_reverse]; exact he0
    have her : end_third_mean c.reverse ≠ 0 := by
      rw [end_third_mean_reverse]; exact hs0
    constructor
    · intro hf
      have h3 : 3 ≤ c.length := by
        by_contra hlt
        rw [trajectory_stable_of c (Or.inl (by omega))] at hf
        exact absurd hf (by decide)
      have hchange := ((falling_iff c h3 hs0 he0).mp hf).2
      have h3r : 3 ≤ c.reverse.length := by rw [List.length_reverse]; exact h3
      rw [rising_iff c.reverse h3r hsr her, start_third_mean_reverse,
        end_third_mean_reverse]
      have hba : end_third_mean c < (9/10) * start_third_mean c := by
        have := (div_lt_iff₀ hs).mp hchange
        linarith
      rw [lt_div_iff₀ he]
      linarith
    · intro hr hrr
      have h3 : 3 ≤ c.length := by
        by_contra hlt
        rw [trajectory_stable_of c (Or.inl (by omega))] at hr
        exact absurd hr (by decide)
      have hchange := (rising_iff c h3 hs0 he0).mp hr
      have h3r : 3 ≤ c.reverse.length := by rw [List.length_reverse]; exact h3
      rw [rising_iff c.reverse h3r hsr her, start_third_mean_reverse,
        end_third_mean_reverse] at hrr
      have h1 := (lt_div_iff₀ hs).mp hchange
      have h2 := (lt_div_iff₀ he).mp hrr
      linarith

/-- Witness for the amended C4: the falling contour [20, 20, 10]
reverses to a rising one. -/
theorem C4_symmetry_amended_witness :
    determine_pitch_trajectory (List.reverse [20, 20, 10]) = "rising" :=
  ((C4_symmetry_amended.2 [20, 20, 10]
      (by norm_num [start_third_mean, listMean])
      (by norm_num [end_third_mean, listMean])).1
    (by norm_num [determine_pitch_trajectory, start_third_mean, end_third_mean,
      listMean]))

/-- Witness for C10: the first kept entry of the example run indeed has
positive boundary pitches. -/
theorem C10_per_dialogue_filter_witness :
    0 < exampleKeptEntry.start_pitch_hz ∧ 0 < exampleKeptEntry.end_pitch_hz :=
  C10_per_dialogue_filter.1 omittedSegmentExample exampleKeptEntry
    (by norm_num [per_dialogue_entries, dialogue_loop, omittedSegmentExample,
      exampleKeptEntry])

end VaniAI
